import Mathlib

set_option linter.unusedVariables false
set_option linter.unnecessarySeqFocus false

/-!
Shallow embedding of `src/lib/sqlalchemy_sandbox.py`: the `Student`
declarative model (lines 13-40) and the scripted sequence of database
operations it drives (lines 42-183) against an in-memory SQLite engine.

Rows are modelled as `Student` records and the database as the list of rows
in rowid order, together with the next rowid to assign and the clock value
that `datetime.now()` produced when the module was loaded (line 35 calls
`datetime.now()` once, while the class body executes, so the resulting
constant is the column default).  Every column of the source is nullable, so
every field is an `Option`.  Commits that can hit a constraint return
`Except DBError`; the database is unchanged on an error, matching the
rollback of the failed unit of work.
-/

namespace SqlalchemySandbox

/-- A value of column type DateTime, encoded as a natural number (concrete
birthdays below are encoded as yyyymmdd). -/
abbrev DateTime := Nat

/-- The `Student` model of lines 13-40: columns `id` (Integer, primary key
`id_pk`), `name` (String), `email` (String(55), unique), `grade` (Integer,
checked), `birthday` (DateTime), `enrolled_date` (DateTime with a default). -/
structure Student where
  id : Option Nat
  name : Option String
  email : Option String
  grade : Option Int
  birthday : Option DateTime
  enrolled_date : Option DateTime
deriving Repr, DecidableEq

/-- A constraint violation surfaced by the engine at statement time, carrying
the name of the violated constraint from `__table_args__` (lines 16-26). -/
inductive DBError where
  | checkViolation (constraintName : String)
  | uniqueViolation (constraintName : String)
deriving Repr, DecidableEq

/-- The CHECK constraint `grade BETWEEN 1 AND 12` (lines 23-25).  As in SQL, a
NULL grade does not violate the check (the predicate is not false on NULL). -/
def gradeCheckHolds : Option Int → Bool
  | none => true
  | some g => decide (1 ≤ g) && decide (g ≤ 12)

/-- Conflict under the UNIQUE constraint on `email` (lines 20-22): only two
non-null, equal values conflict; SQL NULLs never conflict with anything. -/
def emailConflict : Option String → Option String → Bool
  | some a, some b => a == b
  | _, _ => false

/-- Conflict under the primary key `id_pk` (lines 17-19): two equal assigned
rowids conflict.  An INTEGER PRIMARY KEY is the rowid alias and is never
stored as NULL (a missing id receives a fresh rowid), so only two non-null,
equal values conflict. -/
def idConflict : Option Nat → Option Nat → Bool
  | some a, some b => a == b
  | _, _ => false

/-- The in-memory SQLite database of line 43 plus the schema-load context:
`rows` in rowid order, `nextId` the next rowid to assign, and `loadTimeNow`
the value `datetime.now()` returned while the class body ran (line 35). -/
structure DB where
  rows : List Student
  nextId : Nat
  loadTimeNow : DateTime
deriving Repr, DecidableEq

/-- The row actually written by an INSERT executed at wall-clock time `now`:
a missing `id` receives the next rowid, and a missing `enrolled_date`
receives the column default.  Line 35 binds `default=datetime.now()`: the
call ran at class-body time, so the default is the load-time constant
`db.loadTimeNow`; the insertion-time clock `now` plays no role. -/
def storedRow (db : DB) (now : DateTime) (s : Student) : Student :=
  { s with
    id := match s.id with
      | none => some db.nextId
      | some i => some i
    enrolled_date := match s.enrolled_date with
      | none => some db.loadTimeNow
      | some d => some d }

/-- The INSERT emitted for one row at wall-clock time `now`: the written row
is `storedRow db now s`, and the statement enforces the table constraints of
lines 16-26 — the grade check, the primary key `id_pk`, and uniqueness of
email, each against the stored rows.  On a violation the statement fails and
the database is unchanged. -/
def insertRow (db : DB) (now : DateTime) (s : Student) : Except DBError DB :=
  if !(gradeCheckHolds (storedRow db now s).grade) then
    .error (.checkViolation "grade_between_1_and_12")
  else if db.rows.any fun q => idConflict q.id (storedRow db now s).id then
    .error (.uniqueViolation "id_pk")
  else if db.rows.any fun q => emailConflict q.email (storedRow db now s).email then
    .error (.uniqueViolation "unique_email")
  else
    .ok { db with rows := db.rows ++ [storedRow db now s], nextId := db.nextId + 1 }

/-- Modelled from the spec: the tracked insertion path — `session.add(s)`
followed by `session.commit()` — is present in the script only as the
commented-out lines 73-76, so its semantics are taken from the spec and the
source comment on line 78: the object becomes associated with the session,
and after a successful commit the in-memory object carries its assigned id.
Returns the post-commit database with the refreshed in-memory object; a
constraint violation aborts the unit of work. -/
def addCommit (db : DB) (now : DateTime) (s : Student) : Except DBError (DB × Student) :=
  (insertRow db now s).map fun db2 => (db2, { s with id := (storedRow db now s).id })

/-- The observable effect of a tracked-path commit on the stored state: on
success the new database; on a constraint violation the pending unit of work
is rolled back, the error surfaces, and the database is unchanged. -/
def addCommitRun (db : DB) (now : DateTime) (s : Student) : DB × Option DBError :=
  match addCommit db now s with
  | .ok (db2, _) => (db2, none)
  | .error e => (db, some e)

/-- `session.bulk_save_objects(objs)` followed by `session.commit()` (lines
78-79): each object is inserted in order, but the objects are not associated
with the session, so the in-memory objects come back exactly as passed, id
fields untouched (source comment on line 78).  A constraint violation aborts
the whole unit of work. -/
def bulkSaveObjects (now : DateTime) : DB → List Student → Except DBError (DB × List Student)
  | db, [] => .ok (db, [])
  | db, s :: ss =>
    (insertRow db now s).bind fun db2 =>
      (bulkSaveObjects now db2 ss).map fun p => (p.1, s :: p.2)

/-- `session.query(Student).filter(p)` iterated: the stored rows satisfying
the filter, in rowid order.  Projection queries such as line 92 are modelled
by returning the full row. -/
def queryFilter (p : Student → Bool) (db : DB) : List Student :=
  db.rows.filter p

/-- `Query.first()` / `Query.limit(1)` (lines 111-122, 162, 169, 181): the
first returned row, or an empty result on no rows. -/
def firstResult (rows : List Student) : Option Student :=
  rows.head?

/-- The SQLite comparison behind `ORDER BY grade DESC` on the nullable grade
column: `gradeGe a b` holds when a row of grade `a` sorts no later than one
of grade `b` in descending order; NULL compares below every value. -/
def gradeGe : Option Int → Option Int → Bool
  | _, none => true
  | none, some _ => false
  | some a, some b => decide (b ≤ a)

/-- Insertion step of sorting by grade descending. -/
def insertByGradeDesc (s : Student) : List Student → List Student
  | [] => [s]
  | t :: ts => if gradeGe s.grade t.grade then s :: t :: ts else t :: insertByGradeDesc s ts

/-- `order_by(desc(Student.grade))` (lines 104-122): the stored rows sorted
with the largest grade first. -/
def sortByGradeDesc : List Student → List Student
  | [] => []
  | s :: l => insertByGradeDesc s (sortByGradeDesc l)

/-- `session.query(func.count(Student.id)).first()` (line 125): SQL COUNT
over the `id` column, counting the stored rows whose id is not NULL. -/
def countStudentId (db : DB) : Nat :=
  (db.rows.filter fun r => r.id.isSome).length

/-- The grade written by the increment `grade = grade + 1`; SQL arithmetic on
a NULL grade yields NULL, which the check constraint then lets pass. -/
def incGrade : Option Int → Option Int
  | none => none
  | some g => some (g + 1)

/-- Lines 137-140: load every row, run `student.grade += 1` on each object,
and commit.  The flush updates every stored row; if any updated row violates
the grade check the commit fails, the unit of work is rolled back, and the
database is unchanged. -/
def loopIncrementCommit (db : DB) : Except DBError DB :=
  if (db.rows.map fun s => { s with grade := incGrade s.grade }).all
      (fun r => gradeCheckHolds r.grade) then
    .ok { db with rows := db.rows.map fun s => { s with grade := incGrade s.grade } }
  else
    .error (.checkViolation "grade_between_1_and_12")

/-- Lines 146-148: `session.query(Student).update({Student.grade:
Student.grade + 1})` — a single UPDATE statement incrementing every stored
row's grade inside the engine.  If any updated row violates the grade check
the statement aborts and no row is changed. -/
def bulkUpdateGradePlusOne (db : DB) : Except DBError DB :=
  if (db.rows.map fun s => { s with grade := incGrade s.grade }).all
      (fun r => gradeCheckHolds r.grade) then
    .ok { db with rows := db.rows.map fun s => { s with grade := incGrade s.grade } }
  else
    .error (.checkViolation "grade_between_1_and_12")

/-- `session.delete(obj)` followed by `session.commit()` (lines 165-166):
removes the row whose primary key equals the loaded object's id. -/
def sessionDeleteCommit (db : DB) (s : Student) : DB :=
  { db with rows := db.rows.filter fun r => !(r.id == s.id) }

/-- `query.delete()` (line 179): removes every stored row matching the
query's filter, without loading the rows; non-matching rows are kept as
stored. -/
def queryDelete (p : Student → Bool) (db : DB) : DB :=
  { db with rows := db.rows.filter fun r => !(p r) }

/-- A named index over a list of column names. -/
structure IndexDef where
  name : String
  cols : List String
deriving Repr, DecidableEq

/-- An element of a declarative `__table_args__` tuple. -/
inductive TableArg where
  | primaryKeyConstraint (cols : List String) (constraintName : String)
  | uniqueConstraint (cols : List String) (constraintName : String)
  | checkConstraint (sqltext : String) (constraintName : String)
  | indexArg (idx : IndexDef)
deriving Repr, DecidableEq

/-- The `__table_args__` of `Student`, lines 16-26: the primary key `id_pk`,
the unique constraint `unique_email`, and the check
`grade_between_1_and_12`.  The Index of line 28 is not an element of this
tuple. -/
def studentTableArgs : List TableArg :=
  [ .primaryKeyConstraint ["id"] "id_pk",
    .uniqueConstraint ["email"] "unique_email",
    .checkConstraint "grade BETWEEN 1 AND 12" "grade_between_1_and_12" ]

/-- The Index object constructed by line 28, `Index('index_name', 'name')`.
Its columns are given as strings, and such an Index joins a table's schema
only once it is associated with that table — by appearing in
`__table_args__` or by being built from the table's Column objects.  Line 28
is a bare expression statement inside the class body: its value is bound to
nothing and associated with nothing. -/
def line28Index : IndexDef := { name := "index_name", cols := ["name"] }

/-- The indexes collected onto the `students` table by declarative
processing and emitted by `Base.metadata.create_all` (line 44): exactly the
Index elements of `__table_args__` (no column is declared with index=True).
The unassociated Index of line 28 contributes nothing. -/
def studentsTableIndexes : List IndexDef :=
  studentTableArgs.filterMap fun a =>
    match a with
    | .indexArg i => some i
    | _ => none

/-- Whether the emitted schema contains an index covering the given column. -/
def hasIndexOn (col : String) : Bool :=
  studentsTableIndexes.any fun i => i.cols.contains col

/-- The wall-clock value observed at module load.  Every claim is
independent of its actual value, so it is fixed at 0 so that the scripted
states below are concrete. -/
def loadClock : DateTime := 0

/-- The empty database right after `Base.metadata.create_all` (lines 43-44). -/
def dbEmpty : DB := { rows := [], nextId := 1, loadTimeNow := loadClock }

/-- `albert_einstein` as constructed on lines 51-60: grade 6, birthday
1879-03-14, no explicit id or enrolled_date. -/
def albert_einstein : Student :=
  { id := none, name := some "Albert Einstein",
    email := some "albert.einstein@zurich.edu", grade := some 6,
    birthday := some 18790314, enrolled_date := none }

/-- `alan_turing` as constructed on lines 62-71: grade 11, birthday
1912-06-23, no explicit id or enrolled_date. -/
def alan_turing : Student :=
  { id := none, name := some "Alan Turing",
    email := some "alan.turing@sherborne.edu", grade := some 11,
    birthday := some 19120623, enrolled_date := none }

/-- The database after lines 78-79 bulk-insert the two students: rowids 1
and 2 assigned in the stored rows, enrolled_date defaulted to the load-time
clock. -/
def dbAfterInsert : DB :=
  { rows :=
      [ { albert_einstein with id := some 1, enrolled_date := some loadClock },
        { alan_turing with id := some 2, enrolled_date := some loadClock } ],
    nextId := 3, loadTimeNow := loadClock }

/-- Sanity link between the scripted bulk insert and the concrete state
`dbAfterInsert`: the insert succeeds and hands back the two in-memory
objects untouched. -/
theorem bulkSaveObjects_script :
    bulkSaveObjects loadClock dbEmpty [albert_einstein, alan_turing] =
      .ok (dbAfterInsert, [albert_einstein, alan_turing]) := by rfl

/-- The database after the first update pass (lines 137-140): both grades
incremented once, to 7 and 12, both of which pass the grade check. -/
def dbAfterLoopInc : DB :=
  { rows :=
      [ { albert_einstein with
            id := some 1, grade := some 7, enrolled_date := some loadClock },
        { alan_turing with
            id := some 2, grade := some 12, enrolled_date := some loadClock } ],
    nextId := 3, loadTimeNow := loadClock }

/-- C1: the claim says that after the load-mutate-commit increment and then
the bulk UPDATE `grade = grade + 1`, a query returns every grade increased
by 2 (6 to 8, 11 to 13).  On the code this cannot happen: the first pass
takes the grades from (6, 11) to (7, 12); the bulk UPDATE would take Alan
Turing's grade to 13, which violates the CHECK constraint
grade_between_1_and_12 (lines 23-25), so that statement fails with a
constraint violation instead of producing (8, 13), and the stored grades
remain (7, 12). -/
theorem scripted_double_increment_hits_grade_check :
    loopIncrementCommit dbAfterInsert = .ok dbAfterLoopInc ∧
    bulkUpdateGradePlusOne dbAfterLoopInc =
      .error (.checkViolation "grade_between_1_and_12") ∧
    (queryFilter (fun _ => true) dbAfterLoopInc).map (fun r => r.grade) =
      [some 7, some 12] := by
  exact ⟨by rfl, by rfl, by rfl⟩

/-- C9: the claim says schema creation produces a students table that
includes a secondary index on the name column.  On the code it does not: the
Index of line 28 does name the column `name`, but it is a bare expression
never associated with the students table, and `__table_args__` holds no
index, so the schema emitted by create_all contains no index on name. -/
theorem name_index_not_attached :
    line28Index.cols = ["name"] ∧
    studentsTableIndexes = [] ∧
    hasIndexOn "name" = false := by
  exact ⟨rfl, rfl, rfl⟩

/-! Helper lemmas about the insertion paths. -/

theorem storedRow_name (db : DB) (now : DateTime) (s : Student) :
    (storedRow db now s).name = s.name := rfl

theorem storedRow_email (db : DB) (now : DateTime) (s : Student) :
    (storedRow db now s).email = s.email := rfl

theorem storedRow_grade (db : DB) (now : DateTime) (s : Student) :
    (storedRow db now s).grade = s.grade := rfl

theorem storedRow_id_isSome (db : DB) (now : DateTime) (s : Student) :
    (storedRow db now s).id.isSome = true := by
  cases h : s.id <;> simp [storedRow, h]

theorem insertRow_ok_rows {db : DB} {now : DateTime} {s : Student} {db2 : DB}
    (h : insertRow db now s = .ok db2) :
    db2.rows = db.rows ++ [storedRow db now s] := by
  unfold insertRow at h
  split at h
  · simp at h
  · split at h
    · simp at h
    · split at h
      · simp at h
      · simp only [Except.ok.injEq] at h
        subst h
        rfl

theorem bulkSaveObjects_mono (now : DateTime) :
    ∀ (ss : List Student) {db db2 : DB} {out : List Student},
      bulkSaveObjects now db ss = .ok (db2, out) → ∀ r ∈ db.rows, r ∈ db2.rows := by
  intro ss
  induction ss with
  | nil =>
    intro db db2 out h r hr
    rw [bulkSaveObjects] at h
    simp only [Except.ok.injEq, Prod.mk.injEq] at h
    rw [← h.1]
    exact hr
  | cons s ss ih =>
    intro db db2 out h r hr
    rw [bulkSaveObjects] at h
    cases hins : insertRow db now s with
    | error e => rw [hins] at h; simp [Except.bind] at h
    | ok db1 =>
      rw [hins] at h
      simp only [Except.bind] at h
      cases hrec : bulkSaveObjects now db1 ss with
      | error e => rw [hrec] at h; simp [Except.map] at h
      | ok q =>
        rw [hrec] at h
        simp only [Except.map, Except.ok.injEq, Prod.mk.injEq] at h
        have hr1 : r ∈ db1.rows := by
          rw [insertRow_ok_rows hins]
          exact List.mem_append_left _ hr
        have := @ih db1 q.1 q.2 (by rw [hrec]) r hr1
        rw [← h.1]
        exact this

theorem bulkSaveObjects_out (now : DateTime) :
    ∀ (ss : List Student) {db db2 : DB} {out : List Student},
      bulkSaveObjects now db ss = .ok (db2, out) → out = ss := by
  intro ss
  induction ss with
  | nil =>
    intro db db2 out h
    rw [bulkSaveObjects] at h
    simp only [Except.ok.injEq, Prod.mk.injEq] at h
    exact h.2.symm
  | cons s ss ih =>
    intro db db2 out h
    rw [bulkSaveObjects] at h
    cases hins : insertRow db now s with
    | error e => rw [hins] at h; simp [Except.bind] at h
    | ok db1 =>
      rw [hins] at h
      simp only [Except.bind] at h
      cases hrec : bulkSaveObjects now db1 ss with
      | error e => rw [hrec] at h; simp [Except.map] at h
      | ok q =>
        rw [hrec] at h
        simp only [Except.map, Except.ok.injEq, Prod.mk.injEq] at h
        have : q.2 = ss := @ih db1 q.1 q.2 (by rw [hrec])
        rw [← h.2, this]

theorem bulkSaveObjects_stored (now : DateTime) :
    ∀ (ss : List Student) {db db2 : DB} {out : List Student},
      bulkSaveObjects now db ss = .ok (db2, out) →
      ∀ s ∈ ss, ∃ r ∈ db2.rows,
        r.name = s.name ∧ r.email = s.email ∧ r.grade = s.grade := by
  intro ss
  induction ss with
  | nil =>
    intro db db2 out h s hs
    simp at hs
  | cons s0 ss ih =>
    intro db db2 out h s hs
    rw [bulkSaveObjects] at h
    cases hins : insertRow db now s0 with
    | error e => rw [hins] at h; simp [Except.bind] at h
    | ok db1 =>
      rw [hins] at h
      simp only [Except.bind] at h
      cases hrec : bulkSaveObjects now db1 ss with
      | error e => rw [hrec] at h; simp [Except.map] at h
      | ok q =>
        rw [hrec] at h
        simp only [Except.map, Except.ok.injEq, Prod.mk.injEq] at h
        rcases List.mem_cons.mp hs with hs0 | hrest
        · refine ⟨storedRow db now s0, ?_, ?_, ?_, ?_⟩
          · have h1 : storedRow db now s0 ∈ db1.rows := by
              rw [insertRow_ok_rows hins]
              exact List.mem_append_right _ (List.mem_singleton.mpr rfl)
            have := @bulkSaveObjects_mono now ss db1 q.1 q.2 (by rw [hrec]) _ h1
            rw [← h.1]
            exact this
          · rw [storedRow_name, hs0]
          · rw [storedRow_email, hs0]
          · rw [storedRow_grade, hs0]
        · have := @ih db1 q.1 q.2 (by rw [hrec]) s hrest
          rw [← h.1]
          exact this

/-- C2: a record inserted via the tracked path (session.add then commit)
carries a non-null id on the in-memory object after the commit; records
inserted via the bulk path (bulk_save_objects then commit) come back as the
very objects that were passed in, their id fields untouched (so a null id
stays null), yet each inserted record is stored and retrievable by a
subsequent query on its name and email. -/
theorem insert_paths_id_visibility :
    (∀ (db : DB) (now : DateTime) (s : Student) (db2 : DB) (s2 : Student),
        addCommit db now s = .ok (db2, s2) → s2.id ≠ none) ∧
    (∀ (now : DateTime) (db : DB) (ss : List Student) (db2 : DB) (out : List Student),
        bulkSaveObjects now db ss = .ok (db2, out) →
          out = ss ∧
          ∀ s ∈ ss, ∃ r ∈ db2.rows,
            r.name = s.name ∧ r.email = s.email ∧ r.grade = s.grade ∧
            queryFilter (fun q => q.name == s.name && q.email == s.email) db2 ≠ []) := by
  constructor
  · intro db now s db2 s2 h
    unfold addCommit at h
    cases hins : insertRow db now s with
    | error e => rw [hins] at h; simp [Except.map] at h
    | ok db1 =>
      rw [hins] at h
      simp only [Except.map, Except.ok.injEq, Prod.mk.injEq] at h
      have hid : s2.id = (storedRow db now s).id := by rw [← h.2]
      rw [hid]
      have := storedRow_id_isSome db now s
      intro hcon
      rw [hcon] at this
      simp at this
  · intro now db ss db2 out h
    refine ⟨bulkSaveObjects_out now ss h, ?_⟩
    intro s hs
    obtain ⟨r, hr, hname, hemail, hgrade⟩ := bulkSaveObjects_stored now ss h s hs
    refine ⟨r, hr, hname, hemail, hgrade, ?_⟩
    have hmemf : r ∈ queryFilter (fun q => q.name == s.name && q.email == s.email) db2 := by
      unfold queryFilter
      rw [List.mem_filter]
      refine ⟨hr, ?_⟩
      rw [hname, hemail]
      simp
    exact List.ne_nil_of_mem hmemf

/-- Witness for C2 at the scripted inputs: the tracked insert of
albert_einstein into the empty database yields an in-memory object with the
non-null id 1, and after the scripted bulk insert a query on Albert's name
and email finds a stored row. -/
theorem insert_paths_id_visibility_witness :
    ({ albert_einstein with id := some 1 } : Student).id ≠ none ∧
    queryFilter
      (fun q => q.name == albert_einstein.name && q.email == albert_einstein.email)
      dbAfterInsert ≠ [] := by
  constructor
  · exact insert_paths_id_visibility.1 dbEmpty loadClock albert_einstein
      { rows := [{ albert_einstein with id := some 1, enrolled_date := some loadClock }],
        nextId := 2, loadTimeNow := loadClock }
      { albert_einstein with id := some 1 } (by rfl)
  · obtain ⟨r, _, _, _, _, hne⟩ :=
      (insert_paths_id_visibility.2 loadClock dbEmpty [albert_einstein, alan_turing]
        dbAfterInsert [albert_einstein, alan_turing] bulkSaveObjects_script).2
        albert_einstein (by simp)
    exact hne

/-- C3: for a student with a non-null grade g and otherwise valid fields —
an id and an email each conflicting with no stored row — the tracked-path
commit succeeds exactly when 1 ≤ g ≤ 12; for g outside that range the
commit fails with the violation of the CHECK constraint
grade_between_1_and_12. -/
theorem grade_check_governs_insert (db : DB) (now : DateTime) (s : Student)
    (g : Int) (hg : s.grade = some g)
    (hpk : db.rows.all (fun q => !(idConflict q.id (storedRow db now s).id)) = true)
    (he : db.rows.all (fun q => !(emailConflict q.email s.email)) = true) :
    (1 ≤ g ∧ g ≤ 12 → ∃ db2 s2, addCommit db now s = .ok (db2, s2)) ∧
    (¬(1 ≤ g ∧ g ≤ 12) →
      addCommit db now s = .error (.checkViolation "grade_between_1_and_12")) := by
  have hsg : (storedRow db now s).grade = some g := by rw [storedRow_grade, hg]
  constructor
  · intro hrange
    have hck : gradeCheckHolds (storedRow db now s).grade = true := by
      rw [hsg]
      simp [gradeCheckHolds, hrange.1, hrange.2]
    have hanyid : (db.rows.any fun q => idConflict q.id (storedRow db now s).id)
        = false := by
      rw [List.any_eq_false]
      intro q hq
      have := List.all_eq_true.mp hpk q hq
      simp at this
      simp [this]
    have hany : (db.rows.any fun q => emailConflict q.email (storedRow db now s).email)
        = false := by
      rw [storedRow_email]
      rw [List.any_eq_false]
      intro q hq
      have := List.all_eq_true.mp he q hq
      simp at this
      simp [this]
    refine ⟨{ db with rows := db.rows ++ [storedRow db now s], nextId := db.nextId + 1 },
      { s with id := (storedRow db now s).id }, ?_⟩
    unfold addCommit insertRow
    rw [hck, hanyid, hany]
    rfl
  · intro hn
    have hck : gradeCheckHolds (storedRow db now s).grade = false := by
      rw [hsg]
      simp [gradeCheckHolds]
      omega
    unfold addCommit insertRow
    rw [hck]
    rfl

/-- Witness for C3: inserting albert_einstein (grade 6) into the empty
database succeeds, while the same insert with grade 13 fails with the grade
check violation. -/
theorem grade_check_governs_insert_witness :
    (∃ db2 s2, addCommit dbEmpty loadClock albert_einstein = .ok (db2, s2)) ∧
    addCommit dbEmpty loadClock { albert_einstein with grade := some 13 } =
      .error (.checkViolation "grade_between_1_and_12") := by
  constructor
  · exact (grade_check_governs_insert dbEmpty loadClock albert_einstein 6 rfl rfl rfl).1
      (by decide)
  · exact (grade_check_governs_insert dbEmpty loadClock
      { albert_einstein with grade := some 13 } 13 rfl rfl rfl).2 (by decide)

/-- The database holding only the tracked-path insert of albert_einstein,
used to witness the duplicate-email claim. -/
def dbOneAlbert : DB :=
  { rows := [{ albert_einstein with id := some 1, enrolled_date := some loadClock }],
    nextId := 2, loadTimeNow := loadClock }

/-- C4: once a record with email e has been committed, committing a second
record with the same email fails with a constraint violation raised at
commit time, and the failed unit of work leaves the stored state exactly as
it was: addCommitRun hands back the pre-commit database unchanged together
with the error. -/
theorem duplicate_email_insert_rejected (db : DB) (now1 now2 : DateTime)
    (s1 s2 : Student) (e : String)
    (h1 : s1.email = some e) (h2 : s2.email = some e)
    (db1 : DB) (out1 : Student)
    (hfirst : addCommit db now1 s1 = .ok (db1, out1)) :
    ∃ err, addCommitRun db1 now2 s2 = (db1, some err) := by
  have hins : insertRow db now1 s1 = .ok db1 := by
    unfold addCommit at hfirst
    cases hi : insertRow db now1 s1 with
    | error e2 => rw [hi] at hfirst; simp [Except.map] at hfirst
    | ok dbx =>
      rw [hi] at hfirst
      simp only [Except.map, Except.ok.injEq, Prod.mk.injEq] at hfirst
      rw [← hfirst.1]
  have hmem : storedRow db now1 s1 ∈ db1.rows := by
    rw [insertRow_ok_rows hins]
    exact List.mem_append_right _ (List.mem_singleton.mpr rfl)
  have hmail : (storedRow db now1 s1).email = some e := by rw [storedRow_email, h1]
  unfold addCommitRun addCommit
  cases hck : gradeCheckHolds (storedRow db1 now2 s2).grade with
  | false =>
    have herr : insertRow db1 now2 s2 =
        .error (.checkViolation "grade_between_1_and_12") := by
      unfold insertRow
      rw [hck]
      rfl
    rw [herr]
    exact ⟨.checkViolation "grade_between_1_and_12", rfl⟩
  | true =>
    cases hpk : (db1.rows.any fun q => idConflict q.id (storedRow db1 now2 s2).id) with
    | true =>
      have herr : insertRow db1 now2 s2 = .error (.uniqueViolation "id_pk") := by
        unfold insertRow
        rw [hck, hpk]
        rfl
      rw [herr]
      exact ⟨.uniqueViolation "id_pk", rfl⟩
    | false =>
      have hany : (db1.rows.any fun q => emailConflict q.email (storedRow db1 now2 s2).email)
          = true := by
        rw [List.any_eq_true]
        refine ⟨storedRow db now1 s1, hmem, ?_⟩
        rw [hmail, storedRow_email db1 now2 s2, h2]
        simp [emailConflict]
      have herr : insertRow db1 now2 s2 = .error (.uniqueViolation "unique_email") := by
        unfold insertRow
        rw [hck, hpk, hany]
        rfl
      rw [herr]
      exact ⟨.uniqueViolation "unique_email", rfl⟩

/-- Witness for C4: after the tracked insert of albert_einstein, committing
alan_turing carrying Albert's email fails and leaves the stored state
unchanged. -/
theorem duplicate_email_insert_rejected_witness :
    ∃ err, addCommitRun dbOneAlbert loadClock
      { alan_turing with email := albert_einstein.email } = (dbOneAlbert, some err) :=
  duplicate_email_insert_rejected dbEmpty loadClock loadClock albert_einstein
    { alan_turing with email := albert_einstein.email } "albert.einstein@zurich.edu"
    rfl rfl dbOneAlbert { albert_einstein with id := some 1 } (by rfl)

/-! Helper lemmas about the descending sort behind ORDER BY grade DESC. -/

theorem gradeGe_refl (a : Option Int) : gradeGe a a = true := by
  cases a <;> simp [gradeGe]

theorem gradeGe_total (a b : Option Int) : gradeGe a b = true ∨ gradeGe b a = true := by
  cases a <;> cases b <;> simp [gradeGe] <;> omega

theorem gradeGe_trans {a b c : Option Int} (h1 : gradeGe a b = true)
    (h2 : gradeGe b c = true) : gradeGe a c = true := by
  cases a <;> cases b <;> cases c <;> simp [gradeGe] at * <;> omega

theorem mem_insertByGradeDesc {r s : Student} {l : List Student} :
    r ∈ insertByGradeDesc s l ↔ r = s ∨ r ∈ l := by
  induction l with
  | nil => simp [insertByGradeDesc]
  | cons t ts ih =>
    by_cases h : gradeGe s.grade t.grade = true
    · simp [insertByGradeDesc, h]
    · simp only [insertByGradeDesc, if_neg h, List.mem_cons, ih]
      tauto

theorem sortByGradeDesc_head_max :
    ∀ (l : List Student), l ≠ [] →
      ∃ r, (sortByGradeDesc l).head? = some r ∧ r ∈ l ∧
        ∀ x ∈ l, gradeGe r.grade x.grade = true := by
  intro l
  induction l with
  | nil => intro h; exact absurd rfl h
  | cons s l ih =>
    intro _
    by_cases hl : l = []
    · subst hl
      refine ⟨s, rfl, List.mem_singleton.mpr rfl, ?_⟩
      intro x hx
      rw [List.mem_singleton.mp hx]
      exact gradeGe_refl s.grade
    · obtain ⟨r1, hhead, hmem, hmax⟩ := ih hl
      cases e : sortByGradeDesc l with
      | nil => rw [e] at hhead; simp at hhead
      | cons r1x rest =>
        rw [e] at hhead
        simp only [List.head?_cons, Option.some.injEq] at hhead
        subst hhead
        by_cases hge : gradeGe s.grade r1x.grade = true
        · refine ⟨s, ?_, List.mem_cons_self s l, ?_⟩
          · show (sortByGradeDesc (s :: l)).head? = some s
            unfold sortByGradeDesc
            rw [e]
            unfold insertByGradeDesc
            rw [if_pos hge]
            rfl
          · intro x hx
            rcases List.mem_cons.mp hx with hxs | hxl
            · rw [hxs]; exact gradeGe_refl s.grade
            · exact gradeGe_trans hge (hmax x hxl)
        · have hback : gradeGe r1x.grade s.grade = true := by
            rcases gradeGe_total s.grade r1x.grade with h | h
            · exact absurd h hge
            · exact h
          refine ⟨r1x, ?_, List.mem_cons_of_mem s hmem, ?_⟩
          · show (sortByGradeDesc (s :: l)).head? = some r1x
            unfold sortByGradeDesc
            rw [e]
            unfold insertByGradeDesc
            rw [if_neg hge]
            rfl
          · intro x hx
            rcases List.mem_cons.mp hx with hxs | hxl
            · rw [hxs]; exact hback
            · exact hmax x hxl

/-- C5: sorting the stored rows by grade descending and taking the first
result (limit(1) and first() agree, both being the head of the ordered
result) yields a stored record whose grade is maximal among all stored
records; on the scripted data with grades 6 and 11 it is the grade-11
student Alan Turing. -/
theorem order_by_grade_desc_first_is_max :
    (∀ (rows : List Student), rows ≠ [] →
      ∃ r, firstResult (sortByGradeDesc rows) = some r ∧ r ∈ rows ∧
        ∀ x ∈ rows, gradeGe r.grade x.grade = true) ∧
    firstResult (sortByGradeDesc dbAfterInsert.rows) =
      some { alan_turing with id := some 2, enrolled_date := some loadClock } := by
  constructor
  · exact sortByGradeDesc_head_max
  · rfl

/-- Witness for C5 at the scripted rows: the ordered-descending first result
over dbAfterInsert is a stored row of maximal grade. -/
theorem order_by_grade_desc_first_is_max_witness :
    ∃ r, firstResult (sortByGradeDesc dbAfterInsert.rows) = some r ∧
      r ∈ dbAfterInsert.rows ∧
      ∀ x ∈ dbAfterInsert.rows, gradeGe r.grade x.grade = true :=
  order_by_grade_desc_first_is_max.1 dbAfterInsert.rows (by decide)

/-- C6: the COUNT aggregate over the id column equals the number of stored
rows whenever every stored row has a non-null id — which holds throughout
the scripted run, since both insertion paths always write a fresh rowid —
and in particular it returns 2 right after the two bulk-path insertions. -/
theorem count_id_counts_stored_rows :
    (∀ db : DB, (∀ r ∈ db.rows, r.id.isSome = true) →
      countStudentId db = db.rows.length) ∧
    countStudentId dbAfterInsert = 2 := by
  constructor
  · intro db h
    unfold countStudentId
    rw [List.filter_eq_self.mpr h]
  · rfl

/-- Witness for C6: at the scripted post-insert state the aggregate equals
the stored row count. -/
theorem count_id_counts_stored_rows_witness :
    countStudentId dbAfterInsert = dbAfterInsert.rows.length :=
  count_id_counts_stored_rows.1 dbAfterInsert (by decide)

/-- Removing the rows matching a predicate and then filtering the remainder
by that same predicate leaves nothing. -/
theorem filter_after_remove (p : Student → Bool) (l : List Student) :
    (l.filter fun r => !(p r)).filter p = [] := by
  rw [List.filter_eq_nil_iff]
  intro a ha
  have h := (List.mem_filter.mp ha).2
  simp only [Bool.not_eq_true'] at h
  simp [h]

/-- C7: after a record is removed — by session.delete on the loaded object
followed by commit, or by a filtered bulk query.delete — a subsequent query
filtered to that record returns no result: first() is empty, never a stale
object.  The last conjunct is the scripted instance, deleting the loaded
Albert Einstein row and re-running the name query of lines 157-171. -/
theorem query_after_removal_is_empty :
    (∀ (db : DB) (s : Student),
      firstResult (queryFilter (fun r => r.id == s.id) (sessionDeleteCommit db s)) =
        none) ∧
    (∀ (db : DB) (p : Student → Bool),
      firstResult (queryFilter p (queryDelete p db)) = none) ∧
    firstResult (queryFilter (fun r => r.name == some "Albert Einstein")
      (sessionDeleteCommit dbAfterLoopInc
        { albert_einstein with
            id := some 1, grade := some 7, enrolled_date := some loadClock })) =
      none := by
  refine ⟨?_, ?_, by rfl⟩
  · intro db s
    unfold firstResult queryFilter sessionDeleteCommit
    rw [filter_after_remove (fun r => r.id == s.id) db.rows]
    rfl
  · intro db p
    unfold firstResult queryFilter queryDelete
    rw [filter_after_remove p db.rows]
    rfl

/-- C8: the enrolled_date default is the one clock value captured when the
class body ran (line 35 evaluates datetime.now() once, at module load): two
records inserted at different wall-clock times, neither carrying an explicit
enrolled_date, are both stored with the load-time value, hence with the same
enrolled_date. -/
theorem enrolled_date_default_fixed_at_load (db : DB) (t1 t2 : DateTime)
    (s1 s2 : Student) (hne : t1 ≠ t2)
    (h1 : s1.enrolled_date = none) (h2 : s2.enrolled_date = none) :
    (storedRow db t1 s1).enrolled_date = some db.loadTimeNow ∧
    (storedRow db t2 s2).enrolled_date = some db.loadTimeNow ∧
    (storedRow db t1 s1).enrolled_date = (storedRow db t2 s2).enrolled_date := by
  refine ⟨?_, ?_, ?_⟩ <;> simp [storedRow, h1, h2]

/-- Witness for C8: albert_einstein inserted at clock 5 and alan_turing
inserted at clock 9 receive the same stored enrolled_date. -/
theorem enrolled_date_default_fixed_at_load_witness :
    (storedRow dbEmpty 5 albert_einstein).enrolled_date =
      (storedRow dbEmpty 9 alan_turing).enrolled_date :=
  (enrolled_date_default_fixed_at_load dbEmpty 5 9 albert_einstein alan_turing
    (by decide) rfl rfl).2.2

/-- C10: a filtered bulk delete keeps every non-matching stored row exactly
as stored, keeps nothing that matches and invents nothing, is a no-op (and
completes without error, being a total operation) when no stored row
matches, and a subsequent first() on the same filter returns an empty
result. -/
theorem bulk_delete_exact_frame (p : Student → Bool) (db : DB) :
    (∀ r ∈ db.rows, p r = false → r ∈ (queryDelete p db).rows) ∧
    (∀ r ∈ (queryDelete p db).rows, r ∈ db.rows ∧ p r = false) ∧
    ((∀ r ∈ db.rows, p r = false) → queryDelete p db = db) ∧
    firstResult (queryFilter p (queryDelete p db)) = none := by
  refine ⟨?_, ?_, ?_, ?_⟩
  · intro r hr hp
    unfold queryDelete
    rw [List.mem_filter]
    exact ⟨hr, by simp [hp]⟩
  · intro r hr
    unfold queryDelete at hr
    have h := List.mem_filter.mp hr
    refine ⟨h.1, ?_⟩
    have := h.2
    simpa using this
  · intro hall
    unfold queryDelete
    cases db with
    | mk rows nextId loadTimeNow =>
      simp only [DB.mk.injEq, and_true, true_and]
      rw [List.filter_eq_self]
      intro a ha
      simp [hall a ha]
  · unfold firstResult queryFilter queryDelete
    rw [filter_after_remove p db.rows]
    rfl

/-- Witness for C10: deleting on a filter matching no stored row leaves the
scripted database untouched, and after deleting the rows named Albert
Einstein the query for that name finds nothing. -/
theorem bulk_delete_exact_frame_witness :
    queryDelete (fun r => r.name == some "Grace Hopper") dbAfterInsert = dbAfterInsert ∧
    firstResult (queryFilter (fun r => r.name == some "Albert Einstein")
      (queryDelete (fun r => r.name == some "Albert Einstein") dbAfterInsert)) =
      none :=
  ⟨(bulk_delete_exact_frame (fun r => r.name == some "Grace Hopper")
      dbAfterInsert).2.2.1 (by decide),
   (bulk_delete_exact_frame (fun r => r.name == some "Albert Einstein")
      dbAfterInsert).2.2.2⟩

end SqlalchemySandbox
